import Mathlib

/-!
Shallow embedding of the Backend_Proactively service core:
identity verification lifecycle (signup / login / verify-otp in
src/routes/auth.js, backed by the `users` and `otp_verifications`
tables of src/config/init.sql) and the slot reservation engine
(available-slots / book in src/routes/bookings.js, backed by the
`session_bookings` table).

Modelling conventions:
 - Postgres tables are Lean lists of records; `SERIAL` ids are explicit
   counters in the `DB` state.
 - Time is measured in whole minutes (`Nat`); `INTERVAL '1 hour'` is 60
   and the JWT window `'24h'` is 1440.
 - A Postgres `TIME` value (always on whole minutes here) is a pair
   (hour, minute); string parameters bound to a TIME column go through
   `pgParseTime`, and `to_char(..., 'HH24:MI')` is `formatSlot`.
 - Each route handler is a pure function `DB → inputs → result × DB`;
   a thrown exception that reaches the handler's catch block is a
   `serverError` result, and `ROLLBACK` is modelled by returning the
   state as it was at `BEGIN` (a ROLLBACK issued after COMMIT is a
   no-op, so the committed state is returned in that case).
 - Statement-level interleaving of two concurrent transactions is
   modelled by the `signupRace` / `bookRace` functions: under READ
   COMMITTED each statement sees only committed state, so a
   transaction's read step is evaluated against the state committed at
   that moment, and its write-through-commit suffix is one atomic step
   (for `users.email` a concurrent duplicate insert blocks on the
   unique index and then fails once the winner commits, which is
   observationally the same as running the suffix atomically; for
   `session_bookings` no constraint exists, so inserts never interact).
 - The bcrypt and jsonwebtoken primitives are opaque: functions taken
   as parameters, universally quantified in the theorems.
-/

/-- One row of the `users` table (init.sql lines 1-10). -/
structure User where
  id : Nat
  firstName : String
  lastName : String
  email : String
  password : String
  userType : String
  isVerified : Bool
deriving Repr, DecidableEq

/-- One row of the `otp_verifications` table (init.sql lines 12-17). -/
structure OtpRecord where
  id : Nat
  userId : Nat
  otp : String
  expiresAt : Nat
deriving Repr, DecidableEq

/-- One row of the `session_bookings` table (init.sql lines 26-34).
`timeSlot` is the TIME column as (hour, minute). -/
structure Booking where
  speakerId : Nat
  userId : Nat
  bookingDate : String
  timeSlot : Nat × Nat
  status : String
deriving Repr, DecidableEq

/-- The durable state: the three tables plus the SERIAL counters that
ids are drawn from. -/
structure DB where
  users : List User
  otps : List OtpRecord
  bookings : List Booking
  nextUserId : Nat
  nextOtpId : Nat
deriving Repr, DecidableEq

/-! ## Booking engine (src/routes/bookings.js) -/

/-- Split a character list at every ':' — the semantics of the
JavaScript `split(':')` (an empty input yields one empty field). -/
def fieldsOnColon (cs : List Char) : List (List Char) :=
  match cs with
  | [] => [[]]
  | c :: rest =>
    let fs := fieldsOnColon rest
    if c = ':' then [] :: fs
    else (c :: fs.headD []) :: fs.tail

/-- Value of the longest leading digit run; `none` when there is no
leading digit (the NaN case of `parseInt`). -/
def digitRunVal (cs : List Char) : Option Nat :=
  match cs.takeWhile Char.isDigit with
  | [] => none
  | ds => some (ds.foldl (fun acc c => acc * 10 + (c.toNat - 48)) 0)

/-- JavaScript `parseInt(s)` (radix 10): skip leading whitespace, an
optional sign, then the longest digit run; `none` is NaN. -/
def jsParseInt (s : String) : Option Int :=
  match s.data.dropWhile Char.isWhitespace with
  | '-' :: rest => (digitRunVal rest).map (fun n => -(n : Int))
  | '+' :: rest => (digitRunVal rest).map (fun n => (n : Int))
  | cs => (digitRunVal cs).map (fun n => (n : Int))

/-- The handler's manual range check on
`parseInt(timeSlot.split(':')[0])` (bookings.js lines 104-107):
`hour < 9 || hour > 15`. Both comparisons are false on NaN, so a
non-numeric prefix passes the check. -/
def hourOutOfRange : Option Int → Bool
  | none => false
  | some h => h < 9 || h > 15

/-- Hour component the handler inspects: `timeSlot.split(':')[0]`
fed to `parseInt`. -/
def timeSlotHour (timeSlot : String) : Option Int :=
  jsParseInt (String.mk ((fieldsOnColon timeSlot.data).headD []))

/-- Numeric value of a nonempty all-digit field; `none` otherwise. -/
def decDigits (cs : List Char) : Option Nat :=
  if !cs.isEmpty && cs.all Char.isDigit then
    some (cs.foldl (fun acc c => acc * 10 + (c.toNat - 48)) 0)
  else none

/-- Postgres parsing of a string bound to a TIME column: `H[H]:MM`
with hour ≤ 23 and minute ≤ 59 (the handler only ever reaches this
with strings of that shape or garbage); `none` is a datatype error,
which surfaces as a thrown query error. -/
def pgParseTime (s : String) : Option (Nat × Nat) :=
  match fieldsOnColon s.data with
  | [h, m] =>
    match decDigits h, decDigits m with
    | some hn, some mn => if hn ≤ 23 && mn ≤ 59 then some (hn, mn) else none
    | _, _ => none
  | _ => none

/-- `to_char(time_slot, 'HH24:MI')`: zero-padded 2-digit fields. -/
def pad2 (n : Nat) : String :=
  if n < 10 then "0" ++ toString n else toString n

/-- Formatted slot string returned by the booked-slots query. -/
def formatSlot (t : Nat × Nat) : String :=
  pad2 t.1 ++ ":" ++ pad2 t.2

/-- The `SELECT COUNT(*) FROM session_bookings WHERE speaker_id = $1
AND booking_date = $2 AND time_slot = $3` step of the book handler. -/
def countSlot (db : DB) (speakerId : Nat) (date : String) (t : Nat × Nat) : Nat :=
  (db.bookings.filter
    (fun b => b.speakerId == speakerId && b.bookingDate == date && b.timeSlot == t)).length

/-- GET /available-slots/:speakerId/:date (bookings.js lines 67-87):
the fixed grid is built by `Array.from({length: 8}, (_, i) =>
`(i+9):00`)`, i.e. the strings "9:00" … "16:00" with no zero padding,
while the booked slots are read back zero-padded via `to_char`. -/
def availableSlots (db : DB) (speakerId : Nat) (date : String) : List String :=
  let bookedSlots :=
    (db.bookings.filter (fun b => b.speakerId == speakerId && b.bookingDate == date)).map
      (fun b => formatSlot b.timeSlot)
  let allSlots := (List.range 8).map (fun i => toString (i + 9) ++ ":00")
  allSlots.filter (fun s => ! bookedSlots.contains s)

/-- Outcome classes of the book handler: 200 success, the 400
slot-range rejection, the 400 already-booked rejection, and the
generic 500 produced by the catch block. -/
inductive BookResult
  | booked
  | invalidSlot
  | slotUnavailable
  | serverError
deriving Repr, DecidableEq

/-- Inputs of POST /book: `req.user.userId` from the verified token,
and the request body fields. -/
structure BookReq where
  callerId : Nat
  speakerId : Nat
  date : String
  timeSlot : String
deriving Repr, DecidableEq

/-- The email-resolution step inside the booking transaction
(bookings.js lines 131-139): `SELECT email, user_type FROM users WHERE
id IN ($1, $2)` followed by `.find(e => e.user_type === 'user').email`
and the speaker counterpart. `none` models the TypeError thrown when
either `.find` comes back undefined. -/
def resolveEmails (db : DB) (callerId speakerId : Nat) : Option (String × String) :=
  let rows := db.users.filter (fun u => u.id == callerId || u.id == speakerId)
  match rows.find? (fun u => u.userType == "user"),
        rows.find? (fun u => u.userType == "speaker") with
  | some uu, some su => some (uu.email, su.email)
  | _, _ => none

/-- The write suffix of the booking transaction, run when the
availability check passed: INSERT the row with status 'confirmed',
resolve the two emails, COMMIT. A failed resolution throws before
COMMIT, so the catch block's ROLLBACK discards the insert. -/
def bookTxnCommit (db : DB) (r : BookReq) (t : Nat × Nat) : BookResult × DB :=
  let row : Booking := ⟨r.speakerId, r.callerId, r.date, t, "confirmed"⟩
  let db1 : DB := { db with bookings := db.bookings ++ [row] }
  match resolveEmails db1 r.callerId r.speakerId with
  | none => (BookResult.serverError, db)
  | some _ => (BookResult.booked, db1)

/-- One transaction body of POST /book after the availability check
was *observed* (the observed count is passed in, so the same function
serves the sequential handler and the interleaved schedule). -/
def bookStep (db : DB) (r : BookReq) (t : Nat × Nat) (observedCount : Nat) : BookResult × DB :=
  if observedCount > 0 then (BookResult.slotUnavailable, db)
  else bookTxnCommit db r t

/-- POST /book (bookings.js lines 90-157). The express-validator chain
on this route is never checked against `validationResult`, so the only
input rejection that runs is the manual hour-range test; a string the
range test passes but Postgres cannot parse as TIME throws at the
availability query and becomes a 500. `notifyOk = false` models a
rejection from the post-commit `Promise.all` of the confirmation mail
and the calendar invite: it lands in the catch block after COMMIT, the
ROLLBACK there is a no-op, and the response is the generic 500. -/
def book (db : DB) (r : BookReq) (notifyOk : Bool) : BookResult × DB :=
  if hourOutOfRange (timeSlotHour r.timeSlot) then (BookResult.invalidSlot, db)
  else
    match pgParseTime r.timeSlot with
    | none => (BookResult.serverError, db)
    | some t =>
      match bookStep db r t (countSlot db r.speakerId r.date t) with
      | (BookResult.booked, db1) =>
        if notifyOk then (BookResult.booked, db1) else (BookResult.serverError, db1)
      | other => other

/-- Two concurrent, valid book transactions interleaved as
check₁, check₂, write-commit₁, write-commit₂ under READ COMMITTED:
both availability checks read the initial committed state, and with no
uniqueness constraint on (speaker_id, booking_date, time_slot) neither
insert can fail. -/
def bookRace (db : DB) (r1 r2 : BookReq) (t1 t2 : Nat × Nat) :
    (BookResult × BookResult) × DB :=
  let c1 := countSlot db r1.speakerId r1.date t1
  let c2 := countSlot db r2.speakerId r2.date t2
  let s1 := bookStep db r1 t1 c1
  let s2 := bookStep s1.2 r2 t2 c2
  ((s1.1, s2.1), s2.2)

/-- The timeSlot pattern declared (but never enforced) on the route:
`^([0-9]|1[0-5]):[0]{2}$`. -/
def timeSlotPatternOk (s : String) : Bool :=
  match s.toList with
  | [h, ':', '0', '0'] => h.isDigit
  | ['1', h2, ':', '0', '0'] => '0' ≤ h2 && h2 ≤ '5'
  | _ => false

/-! ## Identity verification engine (src/routes/auth.js) -/

/-- Outcome classes of POST /signup: 201 created, the 400 duplicate
rejection (same response body on the pre-check and 23505 paths), and
the generic 500. -/
inductive SignupResult
  | created
  | duplicateEmail
  | serverError
deriving Repr, DecidableEq

/-- Request body of POST /signup after validation; the password field
is already the bcrypt hash (opaque). -/
structure SignupReq where
  firstName : String
  lastName : String
  email : String
  hashedPassword : String
  userType : String
deriving Repr, DecidableEq

/-- Pre-check `SELECT id FROM users WHERE email = $1` followed by
`existingUser.rows.length > 0` (auth.js lines 70-75). -/
def emailTaken (db : DB) (email : String) : Bool :=
  (db.users.filter (fun u => u.email == email)).length > 0

/-- `INSERT INTO users ... RETURNING id` against the committed state:
the UNIQUE constraint on `users.email` makes the insert fail (SQLSTATE
23505) when the email is already present. -/
def insertUser (db : DB) (r : SignupReq) : Option (Nat × DB) :=
  if db.users.any (fun u => u.email == r.email) then none
  else
    let uid := db.nextUserId
    let row : User := ⟨uid, r.firstName, r.lastName, r.email, r.hashedPassword, r.userType, false⟩
    some (uid, { db with users := db.users ++ [row], nextUserId := db.nextUserId + 1 })

/-- `INSERT INTO otp_verifications (user_id, otp, expires_at) VALUES
($1, $2, NOW() + INTERVAL '1 hour')` (auth.js lines 89-93). -/
def insertOtp (db : DB) (userId : Nat) (otp : String) (now : Nat) : DB :=
  { db with otps := db.otps ++ [⟨db.nextOtpId, userId, otp, now + 60⟩],
            nextOtpId := db.nextOtpId + 1 }

/-- The signup transaction body after the pre-check was *observed*
(observed value passed in, shared by the sequential handler and the
interleaved schedule). An insert hitting the unique constraint lands in
the catch block, which rolls back and maps error code 23505 to the
same 'Email already registered' response as the pre-check. After
COMMIT, `sendVerificationEmail` is awaited inside the same try block:
a rejection there lands in the catch (whose ROLLBACK is a no-op on the
committed transaction) and yields the generic 500. -/
def signupStep (db : DB) (r : SignupReq) (otp : String) (now : Nat)
    (observedTaken : Bool) (sendOk : Bool) : SignupResult × DB :=
  if observedTaken then (SignupResult.duplicateEmail, db)
  else
    match insertUser db r with
    | none => (SignupResult.duplicateEmail, db)
    | some (uid, db1) =>
      let db2 := insertOtp db1 uid otp now
      if sendOk then (SignupResult.created, db2) else (SignupResult.serverError, db2)

/-- POST /signup (auth.js lines 56-110), sequential execution. -/
def signup (db : DB) (r : SignupReq) (otp : String) (now : Nat) (sendOk : Bool) :
    SignupResult × DB :=
  signupStep db r otp now (emailTaken db r.email) sendOk

/-- Two concurrent signup transactions interleaved as pre-check₁,
pre-check₂, insert-commit₁, insert-commit₂ under READ COMMITTED: both
pre-checks read the initial committed state; the second insert blocks
on the winner's uncommitted unique-index entry and fails with 23505
once the winner commits, which the catch block maps to the duplicate
response. -/
def signupRace (db : DB) (r1 r2 : SignupReq) (otp1 otp2 : String) (now : Nat) :
    (SignupResult × SignupResult) × DB :=
  let p1 := emailTaken db r1.email
  let p2 := emailTaken db r2.email
  let s1 := signupStep db r1 otp1 now p1 true
  let s2 := signupStep s1.2 r2 otp2 now p2 true
  ((s1.1, s2.1), s2.2)

/-- Rows of the `users` table holding a given email. -/
def usersWithEmail (db : DB) (email : String) : Nat :=
  (db.users.filter (fun u => u.email == email)).length

/-- Outcome classes of POST /verify-otp: 200 verified, and the 400
'Invalid or expired OTP' rejection. -/
inductive VerifyOtpResult
  | verified
  | invalidOrExpired
deriving Repr, DecidableEq

/-- The match predicate of the lookup `SELECT ov.* FROM
otp_verifications ov JOIN users u ON u.id = ov.user_id WHERE u.email =
$1 AND ov.otp = $2 AND ov.expires_at > NOW()` (auth.js lines 196-201). -/
def otpRowMatches (db : DB) (now : Nat) (email otp : String) (ov : OtpRecord) : Bool :=
  ov.otp == otp && decide (now < ov.expiresAt)
    && db.users.any (fun u => u.id == ov.userId && u.email == email)

/-- `result.rows[0]` of the lookup query. -/
def findOtp (db : DB) (now : Nat) (email otp : String) : Option OtpRecord :=
  db.otps.find? (otpRowMatches db now email otp)

/-- POST /verify-otp (auth.js lines 191-228): if the joined lookup
finds no row, respond 400 with no state change; otherwise, in one
transaction, `UPDATE users SET is_verified = true WHERE email = $1`
and `DELETE FROM otp_verifications WHERE id = $1`, then COMMIT. -/
def verifyOtp (db : DB) (now : Nat) (email otp : String) : VerifyOtpResult × DB :=
  match findOtp db now email otp with
  | none => (VerifyOtpResult.invalidOrExpired, db)
  | some v =>
    let users1 := db.users.map
      (fun u => if u.email == email then { u with isVerified := true } else u)
    let otps1 := db.otps.filter (fun ov => ov.id != v.id)
    (VerifyOtpResult.verified, { db with users := users1, otps := otps1 })

/-! ## Token issuer / verifier and login (src/utils/auth.js,
src/routes/auth.js lines 139-162) -/

/-- The claims `jwt.sign` embeds plus the window bounds it derives
from `expiresIn: '24h'` (in minutes). -/
structure Token where
  userId : Nat
  userType : String
  issuedAt : Nat
  expiresAt : Nat
deriving Repr, DecidableEq

/-- `generateToken(userId, userType)`: sign {userId, userType} with a
24-hour validity window. -/
def generateToken (userId : Nat) (userType : String) (now : Nat) : Token :=
  ⟨userId, userType, now, now + 24 * 60⟩

/-- Outcome classes of POST /login: 401 invalid credentials, 403
unverified, 200 with a token. -/
inductive LoginResult
  | invalidCredentials
  | unverified
  | success (t : Token)
deriving Repr, DecidableEq

/-- POST /login. `pwCompare` is the opaque `bcrypt.compare`
capability: the handler rejects when the row is absent or the verifier
returns false, then gates on `is_verified`, then issues the token. -/
def login (pwCompare : String → String → Bool) (db : DB) (now : Nat)
    (email password : String) : LoginResult :=
  match db.users.find? (fun u => u.email == email) with
  | none => LoginResult.invalidCredentials
  | some u =>
    if ! pwCompare password u.password then LoginResult.invalidCredentials
    else if ! u.isVerified then LoginResult.unverified
    else LoginResult.success (generateToken u.id u.userType now)

/-- Decoded claims as seen by callers of `verifyToken`. -/
structure TokenClaims where
  userId : Nat
  userType : String
deriving Repr, DecidableEq

/-- `verifyToken(token)` (utils/auth.js lines 19-25): `jwt.verify` is
an opaque primitive that either returns the decoded claims or throws
(malformed token, bad signature, expiry); the wrapper catches every
thrown error and returns null. `jwtVerify` is that opaque primitive,
with `Except.error` standing for a throw. -/
def verifyToken (jwtVerify : String → Except String TokenClaims) (token : String) :
    Option TokenClaims :=
  match jwtVerify token with
  | Except.ok c => some c
  | Except.error _ => none

/-! ## Fixtures -/

/-- Fixture: a verified requester (id 1, user_type 'user') and a
verified speaker (id 2, user_type 'speaker'); no bookings. -/
def sampleDb : DB :=
  { users := [⟨1, "Ann", "Lee", "ann@example.com", "h1", "user", true⟩,
              ⟨2, "Bob", "Roy", "bob@example.com", "h2", "speaker", true⟩],
    otps := [], bookings := [], nextUserId := 3, nextOtpId := 1 }

/-- Fixture: an unverified account (id 1) holding the code 123456 that
expires at minute 60. -/
def otpDb : DB :=
  { users := [⟨1, "Ann", "Lee", "ann@example.com", "h1", "user", false⟩],
    otps := [⟨1, 1, "123456", 60⟩], bookings := [], nextUserId := 2, nextOtpId := 2 }

/-- Fixture: two speaker accounts (ids 2 and 3) and no requester. -/
def twoSpeakersDb : DB :=
  { users := [⟨2, "Bob", "Roy", "bob@example.com", "h2", "speaker", true⟩,
              ⟨3, "Cal", "Kim", "cal@example.com", "h3", "speaker", true⟩],
    otps := [], bookings := [], nextUserId := 4, nextOtpId := 1 }

/-- Shorthand for the booking request used in the concrete booking
scenarios. -/
def bookReq1 : BookReq := ⟨1, 2, "2024-12-15", "10:00"⟩

/-! ## Claim C1 -/

/-- C1: sequentially, a reserve call that finds an existing
reservation for (provider, date, slot) fails with SlotUnavailable and
writes nothing, and one that finds none inserts exactly one confirmed
row; but under the concurrent interleaving check, check, insert,
insert — legal at the default READ COMMITTED level, with no uniqueness
constraint on the triple in init.sql — both of two concurrent reserve
calls for the same (provider 2, 2024-12-15, 10:00) succeed and two
rows exist afterward, refuting the at-most-one-reservation invariant
the claim states for concurrent calls. -/
theorem C1_slot_uniqueness_fails_under_race :
    (book sampleDb bookReq1 true).1 = BookResult.booked
    ∧ countSlot (book sampleDb bookReq1 true).2 2 "2024-12-15" (10, 0) = 1
    ∧ (book sampleDb bookReq1 true).2.bookings
        = [⟨2, 1, "2024-12-15", (10, 0), "confirmed"⟩]
    ∧ book (book sampleDb bookReq1 true).2 bookReq1 true
        = (BookResult.slotUnavailable, (book sampleDb bookReq1 true).2)
    ∧ (bookRace sampleDb bookReq1 bookReq1 (10, 0) (10, 0)).1
        = (BookResult.booked, BookResult.booked)
    ∧ countSlot (bookRace sampleDb bookReq1 bookReq1 (10, 0) (10, 0)).2
        2 "2024-12-15" (10, 0) = 2 := by
  refine ⟨rfl, rfl, rfl, rfl, rfl, rfl⟩

/-! ## Claim C4 -/

/-- C4: the route's declared pattern ^([0-9]|1[0-5]):[0]{2}$ is never
enforced (the handler does not consult validationResult), so the only
live check is parseInt of the prefix before the colon against [9, 15].
Hence "08:00" and "16:00" do fail with InvalidSlot and "9:00" and
"15:00" are accepted, as the claim says, but "9:30" — rejected by the
pattern — is accepted and booked (a state change), and the malformed
"abc" (parseInt NaN passes the range test) surfaces as a generic 500
from the storage layer, not InvalidSlot. -/
theorem C4_timeslot_validation_dead :
    book sampleDb ⟨1, 2, "2024-12-15", "08:00"⟩ true = (BookResult.invalidSlot, sampleDb)
    ∧ book sampleDb ⟨1, 2, "2024-12-15", "16:00"⟩ true = (BookResult.invalidSlot, sampleDb)
    ∧ (book sampleDb ⟨1, 2, "2024-12-15", "9:00"⟩ true).1 = BookResult.booked
    ∧ (book sampleDb ⟨1, 2, "2024-12-15", "15:00"⟩ true).1 = BookResult.booked
    ∧ timeSlotPatternOk "9:30" = false
    ∧ (book sampleDb ⟨1, 2, "2024-12-15", "9:30"⟩ true).1 = BookResult.booked
    ∧ countSlot (book sampleDb ⟨1, 2, "2024-12-15", "9:30"⟩ true).2 2 "2024-12-15" (9, 30) = 1
    ∧ timeSlotPatternOk "abc" = false
    ∧ book sampleDb ⟨1, 2, "2024-12-15", "abc"⟩ true = (BookResult.serverError, sampleDb) := by
  refine ⟨rfl, rfl, rfl, rfl, rfl, rfl, rfl, rfl, rfl⟩

/-! ## Claim C5 -/

/-- C5: for a fresh (provider, date) the endpoint does return the 8
slots 9:00 … 16:00 in ascending order, and a booked 10:00 slot is
absent afterward; but a booked 9:00 slot is still listed, because the
stored slot is read back zero-padded as "09:00" while the generated
grid holds the unpadded literal "9:00", so the filter never matches —
refuting the claim that every booked slot (including 9:00) is absent. -/
theorem C5_booked_nine_oclock_still_listed :
    availableSlots sampleDb 2 "2024-12-15"
      = ["9:00", "10:00", "11:00", "12:00", "13:00", "14:00", "15:00", "16:00"]
    ∧ (book sampleDb bookReq1 true).1 = BookResult.booked
    ∧ availableSlots (book sampleDb bookReq1 true).2 2 "2024-12-15"
        = ["9:00", "11:00", "12:00", "13:00", "14:00", "15:00", "16:00"]
    ∧ (book sampleDb ⟨1, 2, "2024-12-15", "9:00"⟩ true).1 = BookResult.booked
    ∧ countSlot (book sampleDb ⟨1, 2, "2024-12-15", "9:00"⟩ true).2 2 "2024-12-15" (9, 0) = 1
    ∧ availableSlots (book sampleDb ⟨1, 2, "2024-12-15", "9:00"⟩ true).2 2 "2024-12-15"
        = ["9:00", "10:00", "11:00", "12:00", "13:00", "14:00", "15:00", "16:00"] := by
  refine ⟨rfl, rfl, rfl, rfl, rfl, rfl⟩

/-! ## Claim C8 -/

/-- C8 counterexample: after the signup commit, a rejected
verification email lands in the same catch block as genuine storage
failures, so the caller gets the generic 500 result (the constructor
`serverError`, the one taxonomy class that signals failure of the
primary operation) even though the account and code rows were
committed — and likewise for a booking whose post-commit notification
batch fails. There is no partial-success response class anywhere in
the handlers, refuting the claim that the failure is reported as a
partial-success / degraded-delivery condition. -/
theorem C8_notification_failure_reported_as_500 :
    (signup sampleDb ⟨"C", "D", "cd@example.com", "h3", "user"⟩ "123456" 0 false).1
      = SignupResult.serverError
    ∧ usersWithEmail
        (signup sampleDb ⟨"C", "D", "cd@example.com", "h3", "user"⟩ "123456" 0 false).2
        "cd@example.com" = 1
    ∧ (signup sampleDb ⟨"C", "D", "cd@example.com", "h3", "user"⟩ "123456" 0 false).2.otps
        = [⟨1, 3, "123456", 60⟩]
    ∧ (book sampleDb bookReq1 false).1 = BookResult.serverError
    ∧ countSlot (book sampleDb bookReq1 false).2 2 "2024-12-15" (10, 0) = 1 := by
  refine ⟨rfl, rfl, rfl, rfl, rfl⟩

/-- C8 (amended): for every register or reserve call, a failure of the
post-commit notification dispatch never changes the resulting stored
state — the committed mutation is identical to the one left by a run
whose notifications succeed — but whenever the operation would have
reported success, the notification failure turns the response into the
generic 500 failure of the primary operation instead of a
partial-success condition. -/
theorem C8_notification_failure_never_rolls_back (db : DB) (r : SignupReq)
    (otp : String) (now : Nat) (br : BookReq) :
    ((signup db r otp now false).2 = (signup db r otp now true).2
     ∧ ((signup db r otp now true).1 = SignupResult.created →
         (signup db r otp now false).1 = SignupResult.serverError))
    ∧ ((book db br false).2 = (book db br true).2
       ∧ ((book db br true).1 = BookResult.booked →
           (book db br false).1 = BookResult.serverError)) := by
  constructor
  · unfold signup signupStep
    cases emailTaken db r.email
    · cases insertUser db r with
      | none => simp
      | some p => simp
    · simp
  · unfold book
    cases hh : hourOutOfRange (timeSlotHour br.timeSlot)
    · cases hp : pgParseTime br.timeSlot with
      | none => simp
      | some t =>
        simp only
        rcases hs : bookStep db br t (countSlot db br.speakerId br.date t) with ⟨res, db1⟩
        cases res <;> simp
    · simp

/-- C8 witness: the amended theorem applied at the sample state, where
both the signup and the booking commit. -/
theorem C8_notification_failure_never_rolls_back_witness :
    (signup sampleDb ⟨"C", "D", "cd@example.com", "h3", "user"⟩ "123456" 0 false).2
      = (signup sampleDb ⟨"C", "D", "cd@example.com", "h3", "user"⟩ "123456" 0 true).2
    ∧ (signup sampleDb ⟨"C", "D", "cd@example.com", "h3", "user"⟩ "123456" 0 false).1
      = SignupResult.serverError
    ∧ (book sampleDb bookReq1 false).2 = (book sampleDb bookReq1 true).2
    ∧ (book sampleDb bookReq1 false).1 = BookResult.serverError := by
  have h := C8_notification_failure_never_rolls_back sampleDb
    ⟨"C", "D", "cd@example.com", "h3", "user"⟩ "123456" 0 bookReq1
  exact ⟨h.1.1, h.1.2 rfl, h.2.1, h.2.2 rfl⟩

/-! ## Claim C3 -/

/-- Helper: a SELECT-and-test-row-count check agrees with an
existence scan of the same predicate. -/
theorem filter_length_pos_eq_any (l : List User) (p : User → Bool) :
    decide (0 < (l.filter p).length) = l.any p := by
  induction l with
  | nil => rfl
  | cons u us ih => cases h : p u <;> simp [List.filter_cons, h, List.any_cons, ih]

/-- Helper: the pre-check and the unique-constraint scan test the
same fact about the committed state. -/
theorem emailTaken_eq_any (db : DB) (e : String) :
    emailTaken db e = db.users.any (fun u => u.email == e) := by
  unfold emailTaken
  exact filter_length_pos_eq_any db.users _

/-- C3: two register calls with the same email — run in sequence or
interleaved as pre-check, pre-check, insert-commit, insert-commit —
leave exactly one account row for that email; the loser observes the
duplicate-identity response, and the pre-check path and the
unique-constraint (SQLSTATE 23505) path of a duplicate registration
return the same observable outcome. -/
theorem C3_duplicate_email_uniqueness (db : DB) (r1 r2 : SignupReq)
    (otp1 otp2 : String) (now : Nat)
    (hsame : r2.email = r1.email)
    (hfresh : emailTaken db r1.email = false) :
    (signup db r1 otp1 now true).1 = SignupResult.created
    ∧ usersWithEmail (signup db r1 otp1 now true).2 r1.email = 1
    ∧ signup (signup db r1 otp1 now true).2 r2 otp2 now true
        = (SignupResult.duplicateEmail, (signup db r1 otp1 now true).2)
    ∧ (signupRace db r1 r2 otp1 otp2 now).1
        = (SignupResult.created, SignupResult.duplicateEmail)
    ∧ (signupRace db r1 r2 otp1 otp2 now).2 = (signup db r1 otp1 now true).2
    ∧ (∀ db2 : DB, emailTaken db2 r2.email = true →
        signupStep db2 r2 otp2 now true true = signupStep db2 r2 otp2 now false true) := by
  have hany : db.users.any (fun u => u.email == r1.email) = false := by
    rw [← emailTaken_eq_any]; exact hfresh
  have hlen0 : (db.users.filter (fun u => u.email == r1.email)).length = 0 := by
    have h2 : ¬ 0 < (db.users.filter (fun u => u.email == r1.email)).length := by
      simpa [emailTaken] using hfresh
    omega
  have hu : insertUser db r1 = some (db.nextUserId,
      { db with
          users := db.users ++ [⟨db.nextUserId, r1.firstName, r1.lastName, r1.email,
            r1.hashedPassword, r1.userType, false⟩],
          nextUserId := db.nextUserId + 1 }) := by
    simp [insertUser, hany]
  have eq1 : signup db r1 otp1 now true
      = (SignupResult.created, insertOtp
          { db with
              users := db.users ++ [⟨db.nextUserId, r1.firstName, r1.lastName, r1.email,
                r1.hashedPassword, r1.userType, false⟩],
              nextUserId := db.nextUserId + 1 } db.nextUserId otp1 now) := by
    simp [signup, signupStep, hfresh, hu]
  have hanyA : ((signup db r1 otp1 now true).2.users.any
      (fun u => u.email == r2.email)) = true := by
    rw [eq1]
    simp [insertOtp, List.any_append, hsame]
  have htakenA : emailTaken (signup db r1 otp1 now true).2 r2.email = true := by
    rw [emailTaken_eq_any]
    exact hanyA
  have hins2 : insertUser (signup db r1 otp1 now true).2 r2 = none := by
    unfold insertUser
    rw [if_pos]
    exact hanyA
  have hseq2 : signup (signup db r1 otp1 now true).2 r2 otp2 now true
      = (SignupResult.duplicateEmail, (signup db r1 otp1 now true).2) := by
    have hdef : signup (signup db r1 otp1 now true).2 r2 otp2 now true
        = signupStep (signup db r1 otp1 now true).2 r2 otp2 now
            (emailTaken (signup db r1 otp1 now true).2 r2.email) true := rfl
    rw [hdef, htakenA]
    simp [signupStep]
  have hp2 : emailTaken db r2.email = false := by rw [hsame]; exact hfresh
  have hstep1 : signupStep db r1 otp1 now false true = signup db r1 otp1 now true := by
    simp [signup, hfresh]
  have hstep2 : signupStep (signup db r1 otp1 now true).2 r2 otp2 now false true
      = (SignupResult.duplicateEmail, (signup db r1 otp1 now true).2) := by
    simp [signupStep, hins2]
  have hrace : signupRace db r1 r2 otp1 otp2 now
      = ((SignupResult.created, SignupResult.duplicateEmail),
         (signup db r1 otp1 now true).2) := by
    simp only [signupRace, hfresh, hp2]
    rw [hstep1, hstep2]
    rw [eq1]
  refine ⟨by rw [eq1], ?_, hseq2, by rw [hrace], by rw [hrace], ?_⟩
  · rw [eq1]
    simp [usersWithEmail, insertOtp, List.filter_append, hlen0]
  · intro db2 h2
    have h2a : db2.users.any (fun u => u.email == r2.email) = true := by
      rw [← emailTaken_eq_any]; exact h2
    simp [signupStep, insertUser, h2a]

/-- C3 witness: the uniqueness theorem applied at the sample state to
two registrations of cd@example.com. -/
theorem C3_duplicate_email_uniqueness_witness :
    (signup sampleDb ⟨"C", "D", "cd@example.com", "h3", "user"⟩ "111111" 0 true).1
      = SignupResult.created
    ∧ (signupRace sampleDb ⟨"C", "D", "cd@example.com", "h3", "user"⟩
        ⟨"E", "F", "cd@example.com", "h4", "user"⟩ "111111" "222222" 0).1
      = (SignupResult.created, SignupResult.duplicateEmail) :=
  have h := C3_duplicate_email_uniqueness sampleDb
    ⟨"C", "D", "cd@example.com", "h3", "user"⟩
    ⟨"E", "F", "cd@example.com", "h4", "user"⟩ "111111" "222222" 0 rfl rfl
  ⟨h.1, h.2.2.2.1⟩

/-! ## Claim C2 -/

/-- Helper: the verified-flag update rewrites no id or email, so any
existence scan that only inspects ids and emails is unchanged by it. -/
theorem any_id_email_after_verify (us : List User) (email : String)
    (p : Nat → String → Bool) :
    ((us.map (fun u => if u.email == email then { u with isVerified := true } else u)).any
      (fun u => p u.id u.email))
    = us.any (fun u => p u.id u.email) := by
  induction us with
  | nil => rfl
  | cons u t ih =>
    rw [List.map_cons, List.any_cons, List.any_cons, ih]
    by_cases hc : (u.email == email) = true
    · rw [if_pos hc]
    · rw [if_neg hc]

/-- C2: redeeming an unexpired code that matches the account owning
the given email marks that account verified and deletes the code
record in the one transition; with the code record unique, a second
call with the same code fails with the invalid-or-expired response and
changes nothing; and any call whose lookup finds no row — wrong code,
expired code, or no such account — fails the same way with the state
untouched. -/
theorem C2_redeem_code_single_use (db : DB) (now now2 : Nat) (email otp : String)
    (v : OtpRecord)
    (hfind : findOtp db now email otp = some v)
    (huniq : ∀ ov ∈ db.otps,
      (ov.otp == otp && db.users.any (fun u => u.id == ov.userId && u.email == email)) = true →
      ov.id = v.id) :
    (verifyOtp db now email otp).1 = VerifyOtpResult.verified
    ∧ (∀ u ∈ (verifyOtp db now email otp).2.users, u.email = email → u.isVerified = true)
    ∧ (∀ ov ∈ (verifyOtp db now email otp).2.otps, ov.id ≠ v.id)
    ∧ verifyOtp (verifyOtp db now email otp).2 now2 email otp
        = (VerifyOtpResult.invalidOrExpired, (verifyOtp db now email otp).2)
    ∧ (∀ (db3 : DB) (n : Nat) (e o : String), findOtp db3 n e o = none →
        verifyOtp db3 n e o = (VerifyOtpResult.invalidOrExpired, db3)) := by
  have heq : verifyOtp db now email otp
      = (VerifyOtpResult.verified,
         { db with
             users := db.users.map
               (fun u => if u.email == email then { u with isVerified := true } else u),
             otps := db.otps.filter (fun ov => ov.id != v.id) }) := by
    unfold verifyOtp
    rw [hfind]
  have hnone : findOtp (verifyOtp db now email otp).2 now2 email otp = none := by
    rw [heq]
    unfold findOtp
    rw [List.find?_eq_none]
    intro ov hov hmatch
    have hmem : ov ∈ db.otps ∧ (ov.id != v.id) = true := by
      simpa using List.mem_filter.mp hov
    have hmatch2 : (ov.otp == otp
        && db.users.any (fun u => u.id == ov.userId && u.email == email)) = true := by
      have := hmatch
      unfold otpRowMatches at this
      rw [any_id_email_after_verify db.users email
        (fun i e => i == ov.userId && e == email)] at this
      simp only [Bool.and_eq_true] at this
      simp [this.1.1, this.2]
    have hid : ov.id = v.id := huniq ov hmem.1 hmatch2
    simp [hid] at hmem
  have hgen : ∀ (db3 : DB) (n : Nat) (e o : String), findOtp db3 n e o = none →
      verifyOtp db3 n e o = (VerifyOtpResult.invalidOrExpired, db3) := by
    intro db3 n e o h
    unfold verifyOtp
    rw [h]
  refine ⟨by rw [heq], ?_, ?_, hgen _ now2 email otp hnone, hgen⟩
  · intro u hu he
    rw [heq] at hu
    rcases List.mem_map.mp hu with ⟨u0, hu0, rfl⟩
    cases h0 : u0.email == email with
    | true => simp [h0]
    | false =>
      rw [if_neg (by simp [h0])] at he ⊢
      rw [he] at h0
      simp at h0
  · intro ov hov
    rw [heq] at hov
    have := List.mem_filter.mp hov
    simpa using this.2

/-- C2 witness: the single-use theorem applied at the fixture holding
code 123456 for ann@example.com, redeemed at minute 0. -/
theorem C2_redeem_code_single_use_witness :
    (verifyOtp otpDb 0 "ann@example.com" "123456").1 = VerifyOtpResult.verified
    ∧ verifyOtp (verifyOtp otpDb 0 "ann@example.com" "123456").2 0 "ann@example.com" "123456"
        = (VerifyOtpResult.invalidOrExpired,
           (verifyOtp otpDb 0 "ann@example.com" "123456").2) :=
  have h := C2_redeem_code_single_use otpDb 0 0 "ann@example.com" "123456"
    ⟨1, 1, "123456", 60⟩ rfl (by decide)
  ⟨h.1, h.2.2.2.1⟩

/-! ## Claim C6 -/

/-- C6: the code inserted by signup carries expiry = issuance + 60
minutes, and expiry is enforced only at redemption: in any state whose
matching code rows all expire at t0 + 60, redemption at t0 + 61 fails
with the invalid-or-expired response and changes nothing, while
redemption at t0 + 59 succeeds whenever a matching row exists. -/
theorem C6_code_expiry_one_hour (db : DB) (r : SignupReq) (otp : String) (t0 : Nat)
    (hfresh : emailTaken db r.email = false) :
    (signup db r otp t0 true).2.otps
      = db.otps ++ [⟨db.nextOtpId, db.nextUserId, otp, t0 + 60⟩]
    ∧ (∀ (db2 : DB) (email code : String),
        (∀ ov ∈ db2.otps,
          (ov.otp == code
            && db2.users.any (fun u => u.id == ov.userId && u.email == email)) = true →
          ov.expiresAt = t0 + 60) →
        verifyOtp db2 (t0 + 61) email code = (VerifyOtpResult.invalidOrExpired, db2)
        ∧ ((∃ ov ∈ db2.otps,
            (ov.otp == code
              && db2.users.any (fun u => u.id == ov.userId && u.email == email)) = true) →
          (verifyOtp db2 (t0 + 59) email code).1 = VerifyOtpResult.verified)) := by
  constructor
  · have hany : db.users.any (fun u => u.email == r.email) = false := by
      rw [← emailTaken_eq_any]; exact hfresh
    have hu : insertUser db r = some (db.nextUserId,
        { db with
            users := db.users ++ [⟨db.nextUserId, r.firstName, r.lastName, r.email,
              r.hashedPassword, r.userType, false⟩],
            nextUserId := db.nextUserId + 1 }) := by
      simp [insertUser, hany]
    simp [signup, signupStep, hfresh, hu, insertOtp]
  · intro db2 email code hexp
    have hlate : findOtp db2 (t0 + 61) email code = none := by
      unfold findOtp
      rw [List.find?_eq_none]
      intro ov hov hmatch
      unfold otpRowMatches at hmatch
      simp only [Bool.and_eq_true] at hmatch
      have hkey : (ov.otp == code
          && db2.users.any (fun u => u.id == ov.userId && u.email == email)) = true := by
        simp [hmatch.1.1, hmatch.2]
      have he : ov.expiresAt = t0 + 60 := hexp ov hov hkey
      have hlt : t0 + 61 < ov.expiresAt := of_decide_eq_true hmatch.1.2
      omega
    constructor
    · unfold verifyOtp
      rw [hlate]
    · rintro ⟨ov, hov, hkey⟩
      simp only [Bool.and_eq_true] at hkey
      have he : ov.expiresAt = t0 + 60 := by
        apply hexp ov hov
        simp [hkey.1, hkey.2]
      have hsome : (db2.otps.find? (otpRowMatches db2 (t0 + 59) email code)).isSome := by
        rw [List.find?_isSome]
        refine ⟨ov, hov, ?_⟩
        unfold otpRowMatches
        simp [hkey.1, hkey.2, he]
      rcases Option.isSome_iff_exists.mp hsome with ⟨w, hw⟩
      have : findOtp db2 (t0 + 59) email code = some w := hw
      unfold verifyOtp
      rw [this]

/-- C6 witness: the expiry theorem applied at the sample state —
signup at minute 0 yields a code expiring at minute 60; in the
resulting state redemption at minute 61 fails and redemption at
minute 59 succeeds. -/
theorem C6_code_expiry_one_hour_witness :
    (signup sampleDb ⟨"C", "D", "cd@example.com", "h3", "user"⟩ "123456" 0 true).2.otps
      = [⟨1, 3, "123456", 60⟩]
    ∧ verifyOtp (signup sampleDb ⟨"C", "D", "cd@example.com", "h3", "user"⟩ "123456" 0 true).2
        61 "cd@example.com" "123456"
      = (VerifyOtpResult.invalidOrExpired,
         (signup sampleDb ⟨"C", "D", "cd@example.com", "h3", "user"⟩ "123456" 0 true).2)
    ∧ (verifyOtp (signup sampleDb ⟨"C", "D", "cd@example.com", "h3", "user"⟩ "123456" 0 true).2
        59 "cd@example.com" "123456").1 = VerifyOtpResult.verified :=
  have h := C6_code_expiry_one_hour sampleDb ⟨"C", "D", "cd@example.com", "h3", "user"⟩
    "123456" 0 rfl
  have h2 := h.2 (signup sampleDb ⟨"C", "D", "cd@example.com", "h3", "user"⟩ "123456" 0 true).2
    "cd@example.com" "123456" (by decide)
  ⟨h.1, h2.1, h2.2 (by decide)⟩

/-! ## Claim C7 -/

/-- C7: authenticate fails with the invalid-credentials response when
no account row matches the email or the opaque password verifier
rejects the password; it fails with the unverified response when the
row matches and the verifier accepts but is_verified is false; and on
success it returns a token bound to the account id and role with a
24-hour validity window — for every behaviour of the opaque verifier. -/
theorem C7_login_gating (pwCompare : String → String → Bool) (db : DB) (now : Nat)
    (email password : String) :
    (db.users.find? (fun u => u.email == email) = none →
      login pwCompare db now email password = LoginResult.invalidCredentials)
    ∧ (∀ u, db.users.find? (fun w => w.email == email) = some u →
        (pwCompare password u.password = false →
          login pwCompare db now email password = LoginResult.invalidCredentials)
        ∧ (pwCompare password u.password = true → u.isVerified = false →
            login pwCompare db now email password = LoginResult.unverified)
        ∧ (pwCompare password u.password = true → u.isVerified = true →
            login pwCompare db now email password
              = LoginResult.success ⟨u.id, u.userType, now, now + 24 * 60⟩)) := by
  constructor
  · intro h
    unfold login
    rw [h]
  · intro u hu
    refine ⟨?_, ?_, ?_⟩
    · intro hpw
      unfold login
      rw [hu]
      simp [hpw]
    · intro hpw hv
      unfold login
      rw [hu]
      simp [hpw, hv]
    · intro hpw hv
      unfold login
      rw [hu]
      simp [hpw, hv, generateToken]

/-- C7 witness: the gating theorem applied with a concrete verifier
(equality against the stored hash) at the sample state: wrong password
is rejected, the unverified fixture account is gated, and the verified
account receives the 24-hour token bound to its id and role. -/
theorem C7_login_gating_witness :
    login (fun p h => p == h) sampleDb 0 "nobody@example.com" "h1"
      = LoginResult.invalidCredentials
    ∧ login (fun p h => p == h) sampleDb 0 "ann@example.com" "wrong"
      = LoginResult.invalidCredentials
    ∧ login (fun p h => p == h) otpDb 0 "ann@example.com" "h1"
      = LoginResult.unverified
    ∧ login (fun p h => p == h) sampleDb 0 "ann@example.com" "h1"
      = LoginResult.success ⟨1, "user", 0, 1440⟩ :=
  have h1 := C7_login_gating (fun p h => p == h) sampleDb 0 "nobody@example.com" "h1"
  have h2 := C7_login_gating (fun p h => p == h) sampleDb 0 "ann@example.com" "wrong"
  have h3 := C7_login_gating (fun p h => p == h) otpDb 0 "ann@example.com" "h1"
  have h4 := C7_login_gating (fun p h => p == h) sampleDb 0 "ann@example.com" "h1"
  ⟨h1.1 rfl,
   (h2.2 ⟨1, "Ann", "Lee", "ann@example.com", "h1", "user", true⟩ rfl).1 rfl,
   ((h3.2 ⟨1, "Ann", "Lee", "ann@example.com", "h1", "user", false⟩ rfl).2.1 rfl rfl),
   ((h4.2 ⟨1, "Ann", "Lee", "ann@example.com", "h1", "user", true⟩ rfl).2.2 rfl rfl)⟩

/-! ## Claim C9 -/

/-- C9: verifyToken is total for every behaviour of the opaque
jwt.verify primitive: a normal return is passed through as the decoded
claims, every thrown error — malformed input, bad signature, expiry —
is caught and mapped to the null signal, and the overall result is
always either the claims or null, never a propagated exception. -/
theorem C9_verify_token_total (jwtVerify : String → Except String TokenClaims)
    (token : String) :
    (∀ c, jwtVerify token = Except.ok c → verifyToken jwtVerify token = some c)
    ∧ (∀ e, jwtVerify token = Except.error e → verifyToken jwtVerify token = none)
    ∧ ((∃ c, verifyToken jwtVerify token = some c ∧ jwtVerify token = Except.ok c)
       ∨ verifyToken jwtVerify token = none) := by
  cases h : jwtVerify token with
  | ok c =>
    refine ⟨?_, ?_, Or.inl ⟨c, ?_, rfl⟩⟩ <;> simp [verifyToken, h]
  | error e =>
    refine ⟨?_, ?_, Or.inr ?_⟩ <;> simp [verifyToken, h]

/-- C9 witness: the totality theorem applied to a concrete verifier
that throws on everything but one token, at a malformed input and at
the good input. -/
theorem C9_verify_token_total_witness :
    verifyToken (fun s => if s == "good.token.sig" then Except.ok ⟨1, "user"⟩
      else Except.error "jwt malformed") "not a jwt" = none
    ∧ verifyToken (fun s => if s == "good.token.sig" then Except.ok ⟨1, "user"⟩
      else Except.error "jwt malformed") "good.token.sig" = some ⟨1, "user"⟩ :=
  have h1 := C9_verify_token_total
    (fun s => if s == "good.token.sig" then Except.ok ⟨1, "user"⟩
      else Except.error "jwt malformed") "not a jwt"
  have h2 := C9_verify_token_total
    (fun s => if s == "good.token.sig" then Except.ok ⟨1, "user"⟩
      else Except.error "jwt malformed") "good.token.sig"
  ⟨h1.2.1 "jwt malformed" rfl, h2.1 ⟨1, "user"⟩ rfl⟩

/-! ## Claim C10 -/

/-- C10: when the rows retrieved for the caller and the target do not
contain both a user-role and a speaker-role account (so the pair is
not exactly one of each — e.g. a speaker booking another speaker, or a
target that is not a speaker), the email-resolution step inside the
transaction throws before COMMIT: the insert is rolled back, the state
is exactly the pre-call state even though the slot was free and valid,
and the response is the generic 500 — for either notification
behaviour. -/
theorem C10_role_mismatch_rolls_back (db : DB) (r : BookReq) (t : Nat × Nat)
    (hhour : hourOutOfRange (timeSlotHour r.timeSlot) = false)
    (hparse : pgParseTime r.timeSlot = some t)
    (hfree : countSlot db r.speakerId r.date t = 0)
    (hroles : (db.users.filter (fun u => u.id == r.callerId || u.id == r.speakerId)).find?
        (fun u => u.userType == "user") = none
      ∨ (db.users.filter (fun u => u.id == r.callerId || u.id == r.speakerId)).find?
        (fun u => u.userType == "speaker") = none) :
    ∀ notifyOk, book db r notifyOk = (BookResult.serverError, db) := by
  intro notifyOk
  have hresolve : resolveEmails
      { db with bookings := db.bookings
          ++ [⟨r.speakerId, r.callerId, r.date, t, "confirmed"⟩] }
      r.callerId r.speakerId = none := by
    simp only [resolveEmails]
    rcases hroles with h | h
    · rw [h]
    · rw [h]
      cases ((db.users.filter (fun u => u.id == r.callerId || u.id == r.speakerId)).find?
        (fun u => u.userType == "user")) <;> rfl
  have hstep : bookStep db r t (countSlot db r.speakerId r.date t)
      = (BookResult.serverError, db) := by
    rw [hfree]
    simp only [bookStep, bookTxnCommit]
    rw [hresolve]
    simp
  unfold book
  rw [hhour, hparse]
  simp only [Bool.false_eq_true, if_false]
  rw [hstep]

/-- C10 witness: the rollback theorem applied at the two-speaker
fixture — speaker 3 books fellow speaker 2 for a free, valid 10:00
slot; no row is created and the response is the generic 500. -/
theorem C10_role_mismatch_rolls_back_witness :
    book twoSpeakersDb ⟨3, 2, "2024-12-15", "10:00"⟩ true
      = (BookResult.serverError, twoSpeakersDb) :=
  C10_role_mismatch_rolls_back twoSpeakersDb ⟨3, 2, "2024-12-15", "10:00"⟩ (10, 0)
    rfl rfl rfl (Or.inl rfl) true
